import Mathlib

/-!
# Verification of the incremental facet-search controller

Shallow embedding of `src/src/ui/Facet/FacetSearch.ts` (class `FacetSearch`):
the debounced, cancellable facet-search session with its rendered result
list, keyboard cursor, pagination flag and promise handling.

DOM state is embedded as data: the `searchResults` element's selectable
children become a list of `Entry` values in document order, the
`coveo-current` CSS class becomes an optional index into that list, CSS
classes such as `coveo-facet-search-no-results` and the visibility of
elements become booleans.  Promises become identifiers; the handlers that
`triggerNewFacetSearch` attaches with `.then` / `.catch` are recorded in a
list and fire when the corresponding promise settles, exactly as in the
event-loop semantics of JavaScript (attaching a handler to a promise keeps
it armed until that promise settles, regardless of later field
reassignments).
-/

namespace FacetSearchSpec

/-- A selectable element (`.coveo-facet-selectable`) rendered inside the
`searchResults` list: either the "Select All" item built in
`rebuildSearchResults`, or one facet value (identified by its `value`
string, as plucked by `_.pluck(facetValues, 'value')`). -/
inductive Entry where
  | selectAll : Entry
  | value (v : String) : Entry
deriving DecidableEq, Repr

/-- Modelled from the spec: `FacetSearchParameters` is not under `src/`
(only its use sites in `FacetSearch.ts` are).  The spec's
**RequestDescriptor** describes it as an immutable value holding the search
term, the exclusion set of identifiers to omit, a result-count cap, and a
`fetchMore` flag distinguishing "replace" from "append"; `FacetSearch.ts`
additionally reads a `searchEvenIfEmpty` flag and calls `setValueToSearch`,
`excludeCurrentlyDisplayedValuesInSearch` and assigns `nbResults`. -/
structure FacetSearchParameters where
  valueToSearch : String
  fetchMore : Bool
  searchEvenIfEmpty : Bool
  nbResults : Nat
  alwaysExclude : List String
deriving DecidableEq, Repr

/-- Modelled from the spec: the descriptor produced by
`new FacetSearchParameters(this.facet)` before any setter runs — empty
term, replace semantics, no exclusions, and the facet's configured result
cap (an arbitrary default here; every claim constrains only the fields the
source assigns afterwards). -/
def newFacetSearchParameters : FacetSearchParameters :=
  { valueToSearch := ""
    fetchMore := false
    searchEvenIfEmpty := false
    nbResults := 15
    alwaysExclude := [] }

/-- The mutable per-session fields of class `FacetSearch` that the claims
are about, plus the embedded DOM state of its `searchResults` element. -/
structure SessionState where
  /-- Selectable children of `this.searchResults`, in document order. -/
  entries : List Entry
  /-- Index of the element carrying the `coveo-current` class, if any. -/
  current : Option Nat
  /-- `this.currentlyDisplayedResults` (`undefined` ↦ `none`). -/
  currentlyDisplayedResults : Option (List String)
  /-- `this.moreValuesToFetch`. -/
  moreValuesToFetch : Bool
  /-- `this.input.value`. -/
  inputValue : String
  /-- Whether `this.searchResults.style.display != 'none'`. -/
  resultsVisible : Bool
  /-- Whether `this.search` carries `coveo-facet-search-no-results`. -/
  noResultsClass : Bool
  /-- `this.showingFacetSearchWaitAnimation`. -/
  waitAnimation : Bool
  /-- `this.facetSearchPromise`: identifier of the promise the field
  currently references (`undefined` ↦ `none`). -/
  facetSearchPromise : Option Nat
  /-- `this.facetSearchTimeout`: the armed debounce timer together with the
  parameters captured by its closure (`undefined` ↦ `none`). -/
  facetSearchTimeout : Option FacetSearchParameters
deriving DecidableEq, Repr

/-- A fresh session as built by the constructor: empty result list, no
cursor, `moreValuesToFetch = true`, nothing pending. -/
def initialSession : SessionState :=
  { entries := []
    current := none
    currentlyDisplayedResults := none
    moreValuesToFetch := true
    inputValue := ""
    resultsVisible := false
    noResultsClass := false
    waitAnimation := false
    facetSearchPromise := none
    facetSearchTimeout := none }

/-- The facet values displayed in the rendered list (the identifiers the
spec's exclusion set is built from). -/
def displayedValues (s : SessionState) : List String :=
  s.entries.filterMap fun e =>
    match e with
    | Entry.selectAll => none
    | Entry.value v => some v

/-- `buildParamsForNormalSearch`: fresh parameters, term from the input,
`fetchMore = false`. -/
def buildParamsForNormalSearch (s : SessionState) : FacetSearchParameters :=
  { newFacetSearchParameters with
      valueToSearch := s.inputValue
      fetchMore := false }

/-- `buildParamsForExcludingCurrentlyDisplayedValues`: fresh parameters
with the already-displayed identifiers as exclusions
(`excludeCurrentlyDisplayedValuesInSearch(this.searchResults)` — modelled
from the spec's "identifiers already shown as exclusions", the method
itself lives in the missing `FacetSearchParameters.ts`) and the term from
the input. -/
def buildParamsForExcludingCurrentlyDisplayedValues (s : SessionState) : FacetSearchParameters :=
  { newFacetSearchParameters with
      alwaysExclude := displayedValues s
      valueToSearch := s.inputValue }

/-- `buildParamsForFetchingMore`: the excluding parameters with
`fetchMore = true`. -/
def buildParamsForFetchingMore (s : SessionState) : FacetSearchParameters :=
  { buildParamsForExcludingCurrentlyDisplayedValues s with fetchMore := true }

/-- `hideFacetSearchWaitingAnimation` (lines 618–622): show the magnifier,
hide the spinner. -/
def hideFacetSearchWaitingAnimation (s : SessionState) : SessionState :=
  { s with waitAnimation := false }

/-- `showFacetSearchWaitingAnimation` (lines 612–616). -/
def showFacetSearchWaitingAnimation (s : SessionState) : SessionState :=
  { s with waitAnimation := true }

/-- `cancelAnyPendingSearchOperation` (lines 368–379): clear the armed
timer, drop the `facetSearchPromise` field, hide the waiting animation.
Note the source's `Promise.reject(this.facetSearchPromise).catch(() => {})`
creates a *new* rejected promise; it neither rejects the pending promise
nor detaches the handlers attached to it — that is why this function only
clears the field (handler detachment is deliberately absent, mirroring the
source; see `resolveOk` below). -/
def cancelAnyPendingSearchOperation (s : SessionState) : SessionState :=
  hideFacetSearchWaitingAnimation
    { s with facetSearchTimeout := none, facetSearchPromise := none }

/-- `completelyDismissSearch` (lines 123–134): cancel pending operations,
empty the rendered list (which also removes the `coveo-current` element),
reset `moreValuesToFetch` to `true`, drop the no-results class, hide the
result element, clear the input, and set `currentlyDisplayedResults` to
`undefined`. -/
def completelyDismissSearch (s : SessionState) : SessionState :=
  let s := cancelAnyPendingSearchOperation s
  { s with
      entries := []
      current := none
      moreValuesToFetch := true
      noResultsClass := false
      resultsVisible := false
      inputValue := ""
      currentlyDisplayedResults := none }

/-- `rebuildSearchResults` (lines 404–444).  On a replace
(`!fetchMore`) the list is emptied first (removing any `coveo-current`
element); a "Select All" item is built and, when the term is non-empty,
made selectable and appended (before the values on desktop, after them on
mobile); the new value elements are appended; and
`currentlyDisplayedResults` is *concatenated* with the new values (or
initialised to them when `undefined`) — on the replace path the previous
identifiers are kept even though their elements were just removed. -/
def rebuildSearchResults (s : SessionState) (fieldValues : List String)
    (params : FacetSearchParameters) (isMobile : Bool) : SessionState :=
  let entries0 := if params.fetchMore then s.entries else []
  let current0 := if params.fetchMore then s.current else none
  let newValues := fieldValues.map Entry.value
  let entries1 :=
    if params.valueToSearch ≠ "" then
      if isMobile then entries0 ++ newValues ++ [Entry.selectAll]
      else entries0 ++ [Entry.selectAll] ++ newValues
    else entries0 ++ newValues
  let cdr :=
    match s.currentlyDisplayedResults with
    | some old => some (old ++ fieldValues)
    | none => some fieldValues
  { s with
      entries := entries1
      current := current0
      currentlyDisplayedResults := cdr }

/-- `makeFirstSearchResultTheCurrentOne` (lines 522–524):
`makeCurrentResult(this.getSelectables()[0])` — every selectable loses
`coveo-current`, then the first one gains it (no element gains it when the
list is empty). -/
def makeFirstSearchResultTheCurrentOne (s : SessionState) : SessionState :=
  { s with current := if s.entries.isEmpty then none else some 0 }

/-- `processNewFacetSearchResults` (lines 381–402).  `reorder` stands for
`new FacetValuesOrder(this.facet, this.facet.facetSort).reorderValues`, the
spec's domain-pluggable **ResultOrderer** (its class is not under `src/`).
Non-empty results: drop the no-results class, rebuild, show the element on
a replace, and make the first selectable current.  Empty results: on a
fetch-more set `moreValuesToFetch` to false, otherwise hide the element and
set the no-results class. -/
def processNewFacetSearchResults (s : SessionState) (fieldValues : List String)
    (params : FacetSearchParameters) (reorder : List String → List String)
    (isMobile : Bool) : SessionState :=
  let fv := reorder fieldValues
  if fv.length > 0 then
    let s1 := { s with noResultsClass := false }
    let s2 := rebuildSearchResults s1 fv params isMobile
    let s3 := if params.fetchMore then s2 else { s2 with resultsVisible := true }
    makeFirstSearchResultTheCurrentOne s3
  else
    if params.fetchMore then { s with moreValuesToFetch := false }
    else { s with resultsVisible := false, noResultsClass := true }

/-- Body of the `.then` handler attached in `triggerNewFacetSearch`
(lines 149–158): process the results, hide the waiting animation, set
`this.facetSearchPromise = undefined` — unconditionally, with no check
that this request is still the current one. -/
def onSearchSuccess (s : SessionState) (fieldValues : List String)
    (params : FacetSearchParameters) (reorder : List String → List String)
    (isMobile : Bool) : SessionState :=
  let s1 := processNewFacetSearchResults s fieldValues params reorder isMobile
  { s1 with waitAnimation := false, facetSearchPromise := none }

/-- Body of the `.catch` handler attached in `triggerNewFacetSearch`
(lines 160–168): when a real error value exists, log it and hide the
waiting animation; when the rejection carries no error (treated as a normal
cancellation) do not touch the animation; either way set
`this.facetSearchPromise = undefined`. -/
def onSearchFailure (s : SessionState) (error : Option String) : SessionState :=
  match error with
  | some _ => { s with waitAnimation := false, facetSearchPromise := none }
  | none => { s with facetSearchPromise := none }

/-- What a promise's settlement runs.  `triggerNewFacetSearch` attaches the
facet-search `.then` / `.catch` pair (capturing its `params`);
`selectAllValuesMatchingSearch` attaches only its bulk-apply `.then`. -/
inductive Handler where
  | facetSearchHandler (params : FacetSearchParameters) : Handler
  | selectAllHandler : Handler
deriving DecidableEq, Repr

/-- A facet value as handed to `processFacetSearchAllResultsSelected`:
`facetValue.selected = true; facetValue.excluded = false` is set on every
returned value in `selectAllValuesMatchingSearch`. -/
structure SelectedFacetValue where
  value : String
  selected : Bool
  excluded : Bool
deriving DecidableEq, Repr

/-- Outward notifications to the owning facet (the spec's "selection
changed" and "bulk selection completed" events). -/
inductive Notification where
  | selectionChanged (v : String) (excluded : Bool) : Notification
  | bulkSelectionCompleted (values : List SelectedFacetValue) : Notification
deriving DecidableEq, Repr

/-- The session together with the JavaScript promise environment: every
handler ever attached to a still-unsettled promise stays armed (attaching
`.then` to a promise keeps the callback until that promise settles —
reassigning the `facetSearchPromise` *field* does not detach it), plus a
counter producing fresh promise identifiers. -/
structure PromiseWorld where
  sess : SessionState
  attached : List (Nat × Handler)
  nextId : Nat
deriving DecidableEq, Repr

/-- A fresh world: fresh session, no promises outstanding. -/
def initialWorld : PromiseWorld :=
  { sess := initialSession, attached := [], nextId := 0 }

/-- `triggerNewFacetSearch` (lines 140–170): cancel any pending operation,
show the waiting animation, call `facetQueryController.search(params)`
(the issued request is returned in the second component), store the new
promise in `this.facetSearchPromise`, and attach the `.then` / `.catch`
pair to it. -/
def triggerNewFacetSearch (w : PromiseWorld) (params : FacetSearchParameters) :
    PromiseWorld × List FacetSearchParameters :=
  let s := cancelAnyPendingSearchOperation w.sess
  let s := showFacetSearchWaitingAnimation s
  let s := { s with facetSearchPromise := some w.nextId }
  ({ sess := s
     attached := w.attached ++ [(w.nextId, Handler.facetSearchHandler params)]
     nextId := w.nextId + 1 },
   [params])

/-- `startNewSearchTimeout` (lines 352–366): cancel any pending operation
and arm the debounce timer, whose closure captures `params`.  No request is
issued here. -/
def startNewSearchTimeout (s : SessionState) (params : FacetSearchParameters) : SessionState :=
  let s := cancelAnyPendingSearchOperation s
  { s with facetSearchTimeout := some params }

/-- The armed timer firing (the `setTimeout` callback in
`startNewSearchTimeout`): re-read the input *now*; when it is empty, either
search anyway (`params.searchEvenIfEmpty`) or completely dismiss; when it
is non-empty, trigger the search with the captured parameters. -/
def facetSearchTimeoutFire (w : PromiseWorld) : PromiseWorld × List FacetSearchParameters :=
  match w.sess.facetSearchTimeout with
  | none => (w, [])
  | some params =>
    let s := { w.sess with facetSearchTimeout := none }
    if s.inputValue = "" then
      if params.searchEvenIfEmpty then
        triggerNewFacetSearch { w with sess := s } params
      else
        ({ w with sess := completelyDismissSearch s }, [])
    else
      triggerNewFacetSearch { w with sess := s } params

/-- The scroll geometry of the `searchResults` element, in integer pixels.
-/
structure ScrollGeom where
  clientHeight : Int
  scrollHeight : Int
  scrollTop : Int
deriving DecidableEq, Repr

/-- `handleFacetSearchResultsScroll` (lines 469–480): bail out when a
request is pending, the input is non-empty, or `moreValuesToFetch` is
false; otherwise fire a fetch-more request exactly when
`scrollHeight - (scrollTop + clientHeight) < clientHeight / 2` (the
source's JavaScript `/ 2` is exact halving, written here multiplied
through by 2). -/
def handleFacetSearchResultsScroll (w : PromiseWorld) (g : ScrollGeom) :
    PromiseWorld × List FacetSearchParameters :=
  if w.sess.facetSearchPromise.isSome ∨ w.sess.inputValue ≠ "" ∨ ¬w.sess.moreValuesToFetch then
    (w, [])
  else
    let elementHeight := g.clientHeight
    let bottomPosition := g.scrollTop + elementHeight
    if 2 * (g.scrollHeight - bottomPosition) < elementHeight then
      triggerNewFacetSearch w (buildParamsForFetchingMore w.sess)
    else
      (w, [])

/-- `selectAllValuesMatchingSearch` (lines 589–610): build fresh
parameters with `nbResults = 1000` and the current input as term, issue
one (non-debounced) request and attach its bulk-apply `.then` handler —
this promise is *not* stored in `this.facetSearchPromise` — then
synchronously `completelyDismissSearch()`. -/
def selectAllValuesMatchingSearch (w : PromiseWorld) :
    PromiseWorld × List FacetSearchParameters :=
  let params := { newFacetSearchParameters with
                    nbResults := 1000
                    valueToSearch := w.sess.inputValue }
  let w1 := { w with
                attached := w.attached ++ [(w.nextId, Handler.selectAllHandler)]
                nextId := w.nextId + 1 }
  ({ w1 with sess := completelyDismissSearch w1.sess }, [params])

/-- Successful resolution of promise `id` with `values`.  The armed
handler for that promise runs — with *no* check that the session still
references it, since the source's `.then` body performs none — and is then
disarmed (the promise has settled).  A facet-search handler processes the
results (lines 149–158); the bulk-apply handler of
`selectAllValuesMatchingSearch` dismisses the session, marks every value
selected and not excluded, and emits one `processFacetSearchAllResultsSelected`
notification (lines 595–608). -/
def resolveOk (w : PromiseWorld) (id : Nat) (values : List String)
    (reorder : List String → List String) (isMobile : Bool) :
    PromiseWorld × List Notification :=
  match w.attached.find? (fun p => p.1 == id) with
  | none => (w, [])
  | some (_, Handler.facetSearchHandler params) =>
    ({ w with
         sess := onSearchSuccess w.sess values params reorder isMobile
         attached := w.attached.filter (fun p => p.1 ≠ id) },
     [])
  | some (_, Handler.selectAllHandler) =>
    let facetValues := values.map fun v =>
      ({ value := v, selected := true, excluded := false } : SelectedFacetValue)
    ({ w with
         sess := completelyDismissSearch w.sess
         attached := w.attached.filter (fun p => p.1 ≠ id) },
     [Notification.bulkSelectionCompleted facetValues])

/-- Rejection of promise `id` with an optional error value.  Only the
facet-search path attaches a `.catch` (lines 160–168);
`selectAllValuesMatchingSearch` attaches none, so a rejection there leaves
the session untouched. -/
def resolveErr (w : PromiseWorld) (id : Nat) (error : Option String) : PromiseWorld :=
  match w.attached.find? (fun p => p.1 == id) with
  | none => w
  | some (_, Handler.facetSearchHandler _) =>
    { w with
        sess := onSearchFailure w.sess error
        attached := w.attached.filter (fun p => p.1 ≠ id) }
  | some (_, Handler.selectAllHandler) =>
    { w with attached := w.attached.filter (fun p => p.1 ≠ id) }

/-- `moveCurrentResultDown` (lines 533–545) over a list of `n` selectable
elements, cursor given as the index of the `coveo-current` element.
`idx = _.indexOf(allSelectables, current)` is the element's position, or
`-1` when no element carries the class (distinct DOM nodes make `indexOf`
of a present element its index).  The source then marks
`allSelectables[idx + 1]` or wraps to `allSelectables[0]`; with no element
to mark (empty list) no index is produced. -/
def moveCurrentResultDown (n : Nat) (current : Option Nat) : Option Nat :=
  let idx : Int :=
    match current with
    | none => -1
    | some i => if i < n then (i : Int) else -1
  if idx < (n : Int) - 1 then some (idx + 1).toNat
  else if 0 < n then some 0 else none

/-- `moveCurrentResultUp` (lines 547–560): marks
`allSelectables[idx - 1]` when `idx > 0`, otherwise wraps to
`allSelectables[allSelectables.length - 1]`. -/
def moveCurrentResultUp (n : Nat) (current : Option Nat) : Option Nat :=
  let idx : Int :=
    match current with
    | none => -1
    | some i => if i < n then (i : Int) else -1
  if idx > 0 then some (idx - 1).toNat
  else if 0 < n then some (n - 1) else none

/-- Result of running one event handler to completion: the new world, the
remote requests issued synchronously (calls to
`facetQueryController.search`), and the notifications emitted to the
owning facet. -/
structure StepResult where
  world : PromiseWorld
  requests : List FacetSearchParameters
  notifications : List Notification
deriving Repr

/-- `performSelectActionOnCurrentSearchResult` (lines 566–577): requires a
`coveo-current` element (`Assert.check` throws otherwise, aborting the
handler); clicking a facet-value element fires its "select" action
(modelled from the spec's rendering collaborator, whose element classes are
not under `src/`), while clicking the "Select All" element runs its click
handler `selectAllValuesMatchingSearch`. -/
def performSelectActionOnCurrentSearchResult (w : PromiseWorld) : Option StepResult :=
  match w.sess.current with
  | none => none
  | some i =>
    match w.sess.entries[i]? with
    | none => none
    | some (Entry.value v) =>
      some { world := w, requests := [], notifications := [Notification.selectionChanged v false] }
    | some Entry.selectAll =>
      let (w1, reqs) := selectAllValuesMatchingSearch w
      some { world := w1, requests := reqs, notifications := [] }

/-- `performExcludeActionOnCurrentSearchResult` (lines 579–583): requires a
`coveo-current` element; clicks its `.coveo-facet-value-exclude` element
(present on facet-value elements only — the "Select All" item has none, so
the click is a no-op there). -/
def performExcludeActionOnCurrentSearchResult (w : PromiseWorld) : Option StepResult :=
  match w.sess.current with
  | none => none
  | some i =>
    match w.sess.entries[i]? with
    | none => none
    | some (Entry.value v) =>
      some { world := w, requests := [], notifications := [Notification.selectionChanged v true] }
    | some Entry.selectAll =>
      some { world := w, requests := [], notifications := [] }

/-- `keyboardNavigationEnterPressed` (lines 331–342). -/
def keyboardNavigationEnterPressed (w : PromiseWorld) (shift : Bool) (isEmpty : Bool) :
    StepResult :=
  if shift then
    let (w1, reqs) := triggerNewFacetSearch w (buildParamsForNormalSearch w.sess)
    { world := w1, requests := reqs, notifications := [] }
  else if w.sess.resultsVisible then
    match performSelectActionOnCurrentSearchResult w with
    | none => { world := w, requests := [], notifications := [] }
    | some r =>
      { r with world := { r.world with sess := completelyDismissSearch r.world.sess } }
  else if w.sess.noResultsClass ∧ ¬isEmpty then
    let (w1, reqs) := selectAllValuesMatchingSearch w
    { world := w1, requests := reqs, notifications := [] }
  else
    { world := w, requests := [], notifications := [] }

/-- `keyboardNavigationDeletePressed` (lines 344–350). -/
def keyboardNavigationDeletePressed (w : PromiseWorld) (shift : Bool) : StepResult :=
  if shift then
    match performExcludeActionOnCurrentSearchResult w with
    | none => { world := w, requests := [], notifications := [] }
    | some r =>
      { r with world := { r.world with sess := completelyDismissSearch r.world.sess } }
  else
    { world := w, requests := [], notifications := [] }

/-- The keys `handleKeyboardNavigation` switches on. -/
inductive Key where
  | enter | del | escape | downArrow | upArrow | other
deriving DecidableEq, Repr

/-- `handleKeyboardNavigation` (lines 306–329), the non-mobile key-up
path.  The default branch sets `moreValuesToFetch = true`, re-highlights,
and arms the debounce timer for a normal (replace) search. -/
def handleKeyboardNavigation (w : PromiseWorld) (key : Key) (shift : Bool)
    (isEmpty : Bool) : StepResult :=
  match key with
  | Key.enter => keyboardNavigationEnterPressed w shift isEmpty
  | Key.del => keyboardNavigationDeletePressed w shift
  | Key.escape =>
    { world := { w with sess := completelyDismissSearch w.sess }
      requests := [], notifications := [] }
  | Key.downArrow =>
    { world := { w with sess :=
        { w.sess with current := moveCurrentResultDown w.sess.entries.length w.sess.current } }
      requests := [], notifications := [] }
  | Key.upArrow =>
    { world := { w with sess :=
        { w.sess with current := moveCurrentResultUp w.sess.entries.length w.sess.current } }
      requests := [], notifications := [] }
  | Key.other =>
    let s := { w.sess with moreValuesToFetch := true }
    let s := startNewSearchTimeout s (buildParamsForNormalSearch s)
    { world := { w with sess := s }, requests := [], notifications := [] }

/-- `handleFacetSearchKeyUp` (lines 257–267) on desktop: the DOM has
already updated the input to `newInput` when the handler reads it;
`showOrHideClearElement` drops the no-results class when the input is
empty (line 302); then the keyboard switch runs. -/
def handleFacetSearchKeyUp (w : PromiseWorld) (key : Key) (shift : Bool)
    (newInput : String) : StepResult :=
  let isEmpty := newInput = ""
  let s := { w.sess with inputValue := newInput }
  let s := if isEmpty then { s with noResultsClass := false } else s
  handleKeyboardNavigation { w with sess := s } key shift isEmpty

/-- The UI events driving one desktop session, each carrying what the DOM
delivers to the corresponding listener. -/
inductive Event where
  /-- A key-up in the input, after the DOM updated its value. -/
  | keyUp (key : Key) (shift : Bool) (newInput : String) : Event
  /-- The armed debounce timer fires. -/
  | timerFire : Event
  /-- Promise `id` resolves with field values. -/
  | promiseOk (id : Nat) (values : List String) : Event
  /-- Promise `id` rejects, with or without a real error value. -/
  | promiseErr (id : Nat) (error : Option String) : Event
  /-- Focus of the input (`handleFacetSearchFocus`, lines 275–283). -/
  | focusSearch (newDesign : Bool) : Event
  /-- Scroll of the results list. -/
  | scroll (g : ScrollGeom) : Event
  /-- Click on the clear icon (`handleFacetSearchClear`, lines 291–295). -/
  | clearClick : Event
  /-- A document click; `outside` means the target is neither the search
  bar nor the results list (`handleClickElsewhere`, lines 285–289). -/
  | clickElsewhere (outside : Bool) : Event
  /-- Mouse moves over selectable `i` (`makeCurrentResult`). -/
  | hoverResult (i : Nat) : Event
  /-- The deferred dismiss after a non-drag mouse-up on a result
  (lines 458–466). -/
  | resultClickSettled : Event

/-- One desktop event handled to completion (`isMobileDevice()` false
throughout, as required for the keyboard-navigation path).  `reorder`
stands for the facet's pluggable value ordering. -/
def step (reorder : List String → List String) (w : PromiseWorld) (e : Event) : StepResult :=
  match e with
  | Event.keyUp key shift newInput => handleFacetSearchKeyUp w key shift newInput
  | Event.timerFire =>
    let (w1, reqs) := facetSearchTimeoutFire w
    { world := w1, requests := reqs, notifications := [] }
  | Event.promiseOk id values =>
    let (w1, notes) := resolveOk w id values reorder false
    { world := w1, requests := [], notifications := notes }
  | Event.promiseErr id error =>
    { world := resolveErr w id error, requests := [], notifications := [] }
  | Event.focusSearch newDesign =>
    let params :=
      if newDesign then buildParamsForExcludingCurrentlyDisplayedValues w.sess
      else buildParamsForNormalSearch w.sess
    { world := { w with sess := startNewSearchTimeout w.sess params }
      requests := [], notifications := [] }
  | Event.scroll g =>
    let (w1, reqs) := handleFacetSearchResultsScroll w g
    { world := w1, requests := reqs, notifications := [] }
  | Event.clearClick =>
    { world := { w with sess := completelyDismissSearch { w.sess with inputValue := "" } }
      requests := [], notifications := [] }
  | Event.clickElsewhere outside =>
    if w.sess.currentlyDisplayedResults.isSome ∧ outside then
      { world := { w with sess := completelyDismissSearch w.sess }
        requests := [], notifications := [] }
    else
      { world := w, requests := [], notifications := [] }
  | Event.hoverResult i =>
    if i < w.sess.entries.length then
      { world := { w with sess := { w.sess with current := some i } }
        requests := [], notifications := [] }
    else
      { world := w, requests := [], notifications := [] }
  | Event.resultClickSettled =>
    { world := { w with sess := completelyDismissSearch w.sess }
      requests := [], notifications := [] }

/-- The fully dismissed shape of a session: empty rendered list, unset
cursor, `moreValuesToFetch` true, cleared input, no displayed
identifiers. -/
def isDismissed (s : SessionState) : Prop :=
  s.entries = [] ∧ s.current = none ∧ s.moreValuesToFetch = true ∧
    s.inputValue = "" ∧ s.currentlyDisplayedResults = none

theorem isDismissed_completelyDismissSearch (s : SessionState) :
    isDismissed (completelyDismissSearch s) :=
  ⟨rfl, rfl, rfl, rfl, rfl⟩

/-! ## C7 — dismissal resets everything and is idempotent -/

/-- **C7.** After `completelyDismissSearch` returns, from any prior session
state, the rendered result list is empty, the cursor is unset,
`moreValuesToFetch` is true, the input text is cleared, and the set of
displayed value-identifiers is cleared; dismissing again leaves the state
unchanged. -/
theorem dismiss_resets_and_idempotent (s : SessionState) :
    (completelyDismissSearch s).entries = [] ∧
    (completelyDismissSearch s).current = none ∧
    (completelyDismissSearch s).moreValuesToFetch = true ∧
    (completelyDismissSearch s).inputValue = "" ∧
    (completelyDismissSearch s).currentlyDisplayedResults = none ∧
    completelyDismissSearch (completelyDismissSearch s) = completelyDismissSearch s :=
  ⟨rfl, rfl, rfl, rfl, rfl, rfl⟩

/-! ## C8 — cursor movement with wraparound -/

/-- **C8.** Over a non-empty list of `n` selectable entries, `moveDown`
from index `i` anchors at `(i+1) % n` and `moveUp` at `(i+n-1) % n` (down
from the last index wraps to `0`, up from `0` wraps to the last index);
`moveDown` then `moveUp` returns to `i`; with no cursor set, `moveDown`
anchors to the first element and `moveUp` to the last. -/
theorem cursor_move_down_up_wraparound (n i : Nat) (hn : 1 ≤ n) (hi : i < n) :
    moveCurrentResultDown n (some i) = some ((i + 1) % n) ∧
    moveCurrentResultUp n (some i) = some ((i + (n - 1)) % n) ∧
    moveCurrentResultUp n (moveCurrentResultDown n (some i)) = some i ∧
    moveCurrentResultDown n none = some 0 ∧
    moveCurrentResultUp n none = some (n - 1) := by
  have hdown : ∀ j, j < n → moveCurrentResultDown n (some j) = some ((j + 1) % n) := by
    intro j hj
    unfold moveCurrentResultDown
    simp only [hj, if_true]
    by_cases h : j + 1 < n
    · rw [if_pos (by omega : (j : Int) < (n : Int) - 1)]
      have ht : ((j : Int) + 1).toNat = j + 1 := by omega
      rw [ht, Nat.mod_eq_of_lt h]
    · have hj1 : j = n - 1 := by omega
      rw [if_neg (by omega : ¬((j : Int) < (n : Int) - 1)), if_pos (by omega : 0 < n)]
      have : (j + 1) % n = 0 := by
        subst hj1
        rw [Nat.sub_add_cancel hn, Nat.mod_self]
      rw [this]
  have hup : ∀ j, j < n → moveCurrentResultUp n (some j) = some ((j + (n - 1)) % n) := by
    intro j hj
    unfold moveCurrentResultUp
    simp only [hj, if_true]
    by_cases h : 0 < j
    · rw [if_pos (by omega : (j : Int) > 0)]
      have ht : ((j : Int) - 1).toNat = j - 1 := by omega
      have hm : (j + (n - 1)) % n = j - 1 := by
        have he : j + (n - 1) = (j - 1) + 1 * n := by omega
        rw [he, Nat.add_mul_mod_self_right]
        exact Nat.mod_eq_of_lt (by omega)
      rw [ht, hm]
    · have hj0 : j = 0 := by omega
      rw [if_neg (by omega : ¬((j : Int) > 0)), if_pos (by omega : 0 < n)]
      have : (j + (n - 1)) % n = n - 1 := by
        subst hj0
        rw [Nat.zero_add, Nat.mod_eq_of_lt (by omega)]
      rw [this]
  refine ⟨hdown i hi, hup i hi, ?_, ?_, ?_⟩
  · rw [hdown i hi, hup ((i + 1) % n) (Nat.mod_lt _ (by omega))]
    have : ((i + 1) % n + (n - 1)) % n = i := by
      rw [Nat.mod_add_mod]
      have he : i + 1 + (n - 1) = i + 1 * n := by omega
      rw [he, Nat.add_mul_mod_self_right]
      exact Nat.mod_eq_of_lt hi
    rw [this]
  · unfold moveCurrentResultDown
    rw [if_pos (by omega : (-1 : Int) < (n : Int) - 1)]
    rfl
  · unfold moveCurrentResultUp
    rw [if_neg (by omega : ¬((-1 : Int) > 0)), if_pos (by omega : 0 < n)]

/-- Witness for C8 at `n = 3`, `i = 2`: down wraps `2 ↦ 0`, up goes
`2 ↦ 1`, down-then-up returns to `2`, and with no cursor down anchors at
`0`, up at `2`. -/
theorem cursor_move_down_up_wraparound_witness :
    moveCurrentResultDown 3 (some 2) = some ((2 + 1) % 3) ∧
    moveCurrentResultUp 3 (some 2) = some ((2 + (3 - 1)) % 3) ∧
    moveCurrentResultUp 3 (moveCurrentResultDown 3 (some 2)) = some 2 ∧
    moveCurrentResultDown 3 none = some 0 ∧
    moveCurrentResultUp 3 none = some (3 - 1) :=
  cursor_move_down_up_wraparound 3 2 (by decide) (by decide)

/-! ## C3 — failure handling distinguishes cancellation from real errors -/

/-- **C3.** A rejection with a real error value clears the waiting
indicator but does not dismiss the session: the rendered list, cursor,
displayed identifiers, visibility and input survive, and no request is
issued.  A rejection with no error value (the cancellation convention)
re-triggers nothing: the waiting-animation state in particular is left
exactly as it was. -/
theorem searchFailure_clears_wait_but_keeps_session (s : SessionState) (e : String)
    (reorder : List String → List String) (w : PromiseWorld) (id : Nat)
    (error : Option String) :
    (onSearchFailure s (some e)).waitAnimation = false ∧
    (onSearchFailure s (some e)).entries = s.entries ∧
    (onSearchFailure s (some e)).current = s.current ∧
    (onSearchFailure s (some e)).currentlyDisplayedResults = s.currentlyDisplayedResults ∧
    (onSearchFailure s (some e)).resultsVisible = s.resultsVisible ∧
    (onSearchFailure s (some e)).inputValue = s.inputValue ∧
    (onSearchFailure s (some e)).moreValuesToFetch = s.moreValuesToFetch ∧
    (onSearchFailure s none).waitAnimation = s.waitAnimation ∧
    (onSearchFailure s none).entries = s.entries ∧
    (onSearchFailure s none).current = s.current ∧
    (onSearchFailure s none).currentlyDisplayedResults = s.currentlyDisplayedResults ∧
    (onSearchFailure s none).resultsVisible = s.resultsVisible ∧
    (onSearchFailure s none).inputValue = s.inputValue ∧
    (step reorder w (Event.promiseErr id error)).requests = [] :=
  ⟨rfl, rfl, rfl, rfl, rfl, rfl, rfl, rfl, rfl, rfl, rfl, rfl, rfl, rfl⟩

/-! ## C4 — the debounce timer firing -/

/-- **C4.** When the armed debounce timer fires: if the input value at
firing time is empty and the captured parameters did not set
`searchEvenIfEmpty`, the session is fully dismissed and no request is
issued; otherwise exactly one new facet search is triggered with exactly
those parameters. -/
theorem timerFire_empty_dismiss_otherwise_one_search (w : PromiseWorld)
    (params : FacetSearchParameters)
    (harm : w.sess.facetSearchTimeout = some params) :
    (w.sess.inputValue = "" → params.searchEvenIfEmpty = false →
      (facetSearchTimeoutFire w).2 = [] ∧
      (facetSearchTimeoutFire w).1.sess = completelyDismissSearch w.sess ∧
      isDismissed (facetSearchTimeoutFire w).1.sess) ∧
    ((w.sess.inputValue ≠ "" ∨ params.searchEvenIfEmpty = true) →
      (facetSearchTimeoutFire w).2 = [params] ∧
      (facetSearchTimeoutFire w).1.attached
        = w.attached ++ [(w.nextId, Handler.facetSearchHandler params)]) := by
  unfold facetSearchTimeoutFire
  rw [harm]
  constructor
  · intro h1 h2
    simp only [h1, h2, if_true, if_false, Bool.false_eq_true]
    refine ⟨?_, ?_, isDismissed_completelyDismissSearch _⟩ <;> first | rfl | simp
  · intro h
    by_cases h1 : w.sess.inputValue = ""
    · rcases h with h | h
      · exact absurd h1 h
      · simp only [h1, h, if_true]
        exact ⟨rfl, rfl⟩
    · simp only [h1, if_false]
      exact ⟨rfl, rfl⟩

/-- Witness for C4: a world with the timer armed with default parameters
(`searchEvenIfEmpty` false) and an empty input dismisses without issuing a
request. -/
theorem timerFire_empty_dismiss_witness :
    (facetSearchTimeoutFire
        { initialWorld with
            sess := { initialSession with facetSearchTimeout := some newFacetSearchParameters } }).2 = [] ∧
    (facetSearchTimeoutFire
        { initialWorld with
            sess := { initialSession with facetSearchTimeout := some newFacetSearchParameters } }).1.sess
      = completelyDismissSearch
          ({ initialWorld with
               sess := { initialSession with facetSearchTimeout := some newFacetSearchParameters } } : PromiseWorld).sess ∧
    isDismissed
      (facetSearchTimeoutFire
        { initialWorld with
            sess := { initialSession with facetSearchTimeout := some newFacetSearchParameters } }).1.sess :=
  (timerFire_empty_dismiss_otherwise_one_search _ newFacetSearchParameters rfl).1 rfl rfl

/-! ## C6 — scroll-driven pagination gating -/

/-- **C6.** The scroll handler issues zero requests whenever a request is
pending, the input does not qualify (non-empty), or `moreValuesToFetch` is
false; and whenever it does issue a request, all gates were open, the list
was scrolled to within half the viewport height of its bottom, and the one
issued request has `fetchMore = true` with the already-displayed values as
exclusions. -/
theorem scroll_pagination_gating (w : PromiseWorld) (g : ScrollGeom) :
    ((w.sess.facetSearchPromise.isSome ∨ w.sess.inputValue ≠ "" ∨
        w.sess.moreValuesToFetch = false) →
      handleFacetSearchResultsScroll w g = (w, [])) ∧
    (∀ p, (handleFacetSearchResultsScroll w g).2 = [p] →
      w.sess.facetSearchPromise = none ∧
      w.sess.inputValue = "" ∧
      w.sess.moreValuesToFetch = true ∧
      2 * (g.scrollHeight - (g.scrollTop + g.clientHeight)) < g.clientHeight ∧
      p.fetchMore = true ∧
      p.alwaysExclude = displayedValues w.sess) := by
  constructor
  · intro h
    unfold handleFacetSearchResultsScroll
    rw [if_pos]
    rcases h with h | h | h
    · exact Or.inl h
    · exact Or.inr (Or.inl h)
    · exact Or.inr (Or.inr (by simp [h]))
  · intro p hp
    unfold handleFacetSearchResultsScroll at hp
    by_cases hgate : w.sess.facetSearchPromise.isSome ∨ w.sess.inputValue ≠ "" ∨
        ¬w.sess.moreValuesToFetch
    · rw [if_pos hgate] at hp
      exact absurd hp (by simp)
    · rw [if_neg hgate] at hp
      push_neg at hgate
      obtain ⟨hg1, hg2, hg3⟩ := hgate
      by_cases hgeom : 2 * (g.scrollHeight - (g.scrollTop + g.clientHeight)) < g.clientHeight
      · rw [if_pos hgeom] at hp
        have hx : (triggerNewFacetSearch w (buildParamsForFetchingMore w.sess)).2
            = [buildParamsForFetchingMore w.sess] := rfl
        rw [hx] at hp
        injection hp with hpv _
        subst hpv
        refine ⟨?_, hg2, ?_, hgeom, rfl, rfl⟩
        · exact Option.not_isSome_iff_eq_none.mp hg1
        · simpa using hg3
      · rw [if_neg hgeom] at hp
        exact absurd hp (by simp)

/-- Witness for C6: with `moreValuesToFetch` false the scroll handler is a
no-op, even with the list scrolled to the very bottom. -/
theorem scroll_pagination_gating_witness :
    handleFacetSearchResultsScroll
        { initialWorld with sess := { initialSession with moreValuesToFetch := false } }
        { clientHeight := 10, scrollHeight := 100, scrollTop := 90 }
      = ({ initialWorld with sess := { initialSession with moreValuesToFetch := false } }, []) :=
  (scroll_pagination_gating _ _).1 (Or.inr (Or.inr rfl))

/-! ## C2 — cursor after replace and append renders -/

theorem isEmpty_append_right (l t : List Entry) (h : t ≠ []) :
    (l ++ t).isEmpty = false := by
  cases t with
  | nil => exact absurd rfl h
  | cons x xs => cases l <;> rfl

/-- The rendered selectables produced by `rebuildSearchResults`: the kept
entries (previous list on a fetch-more, nothing on a replace) followed by
the new block — "Select All" before the values on desktop and after them
on mobile when the term is non-empty, just the values otherwise. -/
theorem rebuildSearchResults_entries (s : SessionState) (fvs : List String)
    (params : FacetSearchParameters) (isMobile : Bool) :
    (rebuildSearchResults s fvs params isMobile).entries
      = (if params.fetchMore then s.entries else []) ++
        (if params.valueToSearch ≠ "" then
           (if isMobile then fvs.map Entry.value ++ [Entry.selectAll]
            else Entry.selectAll :: fvs.map Entry.value)
         else fvs.map Entry.value) := by
  unfold rebuildSearchResults
  split_ifs with h1 h2 <;> simp [List.append_assoc]

/-- A session state with two rendered values and the cursor anchored on
the second one, as left by a previous replace render plus one `moveDown`.
-/
def anchoredState : SessionState :=
  { initialSession with
      entries := [Entry.value "x", Entry.value "y"]
      current := some 1
      currentlyDisplayedResults := some ["x", "y"]
      resultsVisible := true }

/-- The fetch-more parameters a scroll fires in that state (empty input,
as the scroll path requires). -/
def appendParams : FacetSearchParameters :=
  { newFacetSearchParameters with fetchMore := true }

/-- **C2, counterexample.** With the cursor anchored at index 1 (the
element `"y"`), a non-empty append ( `fetchMore` ) result set arrives and
the code moves the cursor to index 0 — the anchor is *not* left untouched,
even though the anchored element `"y"` is still rendered at index 1. -/
theorem append_render_moves_cursor_counterexample :
    anchoredState.current = some 1 ∧
    anchoredState.entries[1]? = some (Entry.value "y") ∧
    (processNewFacetSearchResults anchoredState ["z"] appendParams (fun l => l) false).current
      = some 0 ∧
    (processNewFacetSearchResults anchoredState ["z"] appendParams (fun l => l) false).entries[1]?
      = some (Entry.value "y") ∧
    (some 0 : Option Nat) ≠ some 1 := by
  refine ⟨rfl, rfl, rfl, rfl, by decide⟩

/-- **C2, amended.** Whenever a non-empty result set is rendered —
replace *or* append — `makeFirstSearchResultTheCurrentOne` runs and the
cursor is reset to the first rendered element; on an append the previously
rendered entries are preserved as a prefix of the grown list (only the
anchor is lost), and on a replace the list is rebuilt from scratch. -/
theorem nonEmpty_render_resets_cursor_to_first (s : SessionState) (fvs : List String)
    (params : FacetSearchParameters) (reorder : List String → List String)
    (isMobile : Bool) (h : 0 < (reorder fvs).length) :
    (processNewFacetSearchResults s fvs params reorder isMobile).current = some 0 ∧
    (params.fetchMore = true →
      ∃ t, (processNewFacetSearchResults s fvs params reorder isMobile).entries
        = s.entries ++ t) := by
  have hne : (if params.valueToSearch ≠ "" then
        (if isMobile then (reorder fvs).map Entry.value ++ [Entry.selectAll]
         else Entry.selectAll :: (reorder fvs).map Entry.value)
       else (reorder fvs).map Entry.value) ≠ [] := by
    split_ifs with h1 h2
    · intro hc
      exact absurd (List.append_eq_nil.mp hc).2 (by simp)
    · simp
    · simp only [ne_eq, List.map_eq_nil_iff]
      intro hc
      rw [hc] at h
      exact absurd h (by simp)
  have hgt : (reorder fvs).length > 0 := h
  have hent : ∀ s1 : SessionState,
      (rebuildSearchResults s1 (reorder fvs) params isMobile).entries.isEmpty = false := by
    intro s1
    rw [rebuildSearchResults_entries]
    exact isEmpty_append_right _ _ hne
  constructor
  · by_cases hfm : params.fetchMore = true
    · simp only [processNewFacetSearchResults, makeFirstSearchResultTheCurrentOne,
        if_pos hgt, hfm, if_true, hent, Bool.false_eq_true, if_false]
    · simp only [processNewFacetSearchResults, makeFirstSearchResultTheCurrentOne,
        if_pos hgt, hfm, if_false, Bool.false_eq_true]
      simp only [hent, Bool.false_eq_true, if_false]
  · intro hfm
    refine ⟨(if params.valueToSearch ≠ "" then
        (if isMobile then (reorder fvs).map Entry.value ++ [Entry.selectAll]
         else Entry.selectAll :: (reorder fvs).map Entry.value)
       else (reorder fvs).map Entry.value), ?_⟩
    simp only [processNewFacetSearchResults, makeFirstSearchResultTheCurrentOne,
      if_pos hgt, hfm, if_true]
    rw [rebuildSearchResults_entries]
    simp [hfm]

/-- Witness for the amended C2: an append of one value onto the anchored
two-value state resets the cursor to index 0 and keeps the old entries as
a prefix. -/
theorem nonEmpty_render_resets_cursor_witness :
    (processNewFacetSearchResults anchoredState ["z"] appendParams (fun l => l) false).current
      = some 0 ∧
    (appendParams.fetchMore = true →
      ∃ t, (processNewFacetSearchResults anchoredState ["z"] appendParams (fun l => l) false).entries
        = anchoredState.entries ++ t) :=
  nonEmpty_render_resets_cursor_to_first anchoredState ["z"] appendParams (fun l => l) false
    (by decide)

/-! ## C5 — the `moreValuesToFetch` flag -/

/-- A world whose session has exhausted pagination
(`moreValuesToFetch = false`). -/
def staleFlagWorld : PromiseWorld :=
  { initialWorld with sess := { initialSession with moreValuesToFetch := false } }

/-- **C5, counterexample.** `moreValuesToFetch` is *not* reset to true
only by the next full replace search: from `moreValuesToFetch = false`, an
escape keystroke (a full dismiss) resets it to true while issuing no
search request at all. -/
theorem moreValuesToFetch_reset_without_search_counterexample :
    staleFlagWorld.sess.moreValuesToFetch = false ∧
    (handleKeyboardNavigation staleFlagWorld Key.escape false true).world.sess.moreValuesToFetch
      = true ∧
    (handleKeyboardNavigation staleFlagWorld Key.escape false true).requests = [] :=
  ⟨rfl, rfl, rfl⟩

/-- **C5, amended.** A fetch-more request completing with zero values sets
`moreValuesToFetch` to false, and while it is false the scroll handler
issues no pagination request; the flag is reset to true by a full dismiss
and by the non-navigation-key branch that schedules the next replace
search — not solely by a completed replace search. -/
theorem moreValuesToFetch_lifecycle (s s2 : SessionState) (fvs : List String)
    (params : FacetSearchParameters) (reorder : List String → List String)
    (isMobile : Bool) (w : PromiseWorld) (g : ScrollGeom) (shift isEmpty : Bool)
    (hempty : reorder fvs = []) (hfm : params.fetchMore = true)
    (hoff : w.sess.moreValuesToFetch = false) :
    (processNewFacetSearchResults s fvs params reorder isMobile).moreValuesToFetch = false ∧
    handleFacetSearchResultsScroll w g = (w, []) ∧
    (completelyDismissSearch s2).moreValuesToFetch = true ∧
    (handleKeyboardNavigation w Key.other shift isEmpty).world.sess.moreValuesToFetch = true ∧
    (handleKeyboardNavigation w Key.other shift isEmpty).requests = [] := by
  refine ⟨?_, ?_, rfl, rfl, rfl⟩
  · unfold processNewFacetSearchResults
    rw [hempty]
    rw [if_neg (by simp), if_pos hfm]
  · exact (scroll_pagination_gating w g).1 (Or.inr (Or.inr hoff))

/-- Witness for the amended C5 at concrete inputs: empty fetch-more
completion on the anchored state, scroll in the exhausted world, dismiss,
and an ordinary keystroke. -/
theorem moreValuesToFetch_lifecycle_witness :
    (processNewFacetSearchResults anchoredState [] appendParams (fun l => l) false).moreValuesToFetch
      = false ∧
    handleFacetSearchResultsScroll staleFlagWorld
        { clientHeight := 10, scrollHeight := 100, scrollTop := 90 }
      = (staleFlagWorld, []) ∧
    (completelyDismissSearch anchoredState).moreValuesToFetch = true ∧
    (handleKeyboardNavigation staleFlagWorld Key.other false false).world.sess.moreValuesToFetch
      = true ∧
    (handleKeyboardNavigation staleFlagWorld Key.other false false).requests = [] :=
  moreValuesToFetch_lifecycle anchoredState anchoredState [] appendParams (fun l => l) false
    staleFlagWorld { clientHeight := 10, scrollHeight := 100, scrollTop := 90 } false false
    rfl rfl rfl

/-! ## C9 — the bulk "select all matching" path -/

/-- Every world reachable from `initialWorld` keeps promise identifiers
below `nextId`; this lemma gives the `find?` fact needed to run the
handler of a freshly attached promise. -/
theorem find?_fresh (l : List (Nat × Handler)) (n : Nat) (hd : Handler)
    (h : ∀ p ∈ l, p.1 < n) :
    (l ++ [(n, hd)]).find? (fun p => p.1 == n) = some (n, hd) := by
  induction l with
  | nil => simp
  | cons a t ih =>
    have ha : a.1 ≠ n := Nat.ne_of_lt (h a (List.mem_cons_self a t))
    rw [List.cons_append, List.find?_cons_of_neg _ (by simp [ha])]
    exact ih fun p hp => h p (List.mem_cons_of_mem a hp)

/-- **C9.** `selectAllValuesMatchingSearch` issues exactly one
non-debounced request (no timer armed) with result cap `1000` and
`fetchMore = false`, and dismisses the session synchronously — before and
hence regardless of the request's outcome: a later rejection changes the
session state not at all.  When the request succeeds with `k` values,
exactly one bulk-apply notification is emitted carrying all `k` values,
each marked selected and not excluded, and the session stays dismissed. -/
theorem selectAllMatching_one_request_dismiss_bulk (w : PromiseWorld)
    (values : List String) (reorder : List String → List String)
    (isMobile : Bool) (error : Option String)
    (hfresh : ∀ p ∈ w.attached, p.1 < w.nextId) :
    (selectAllValuesMatchingSearch w).2
      = [{ newFacetSearchParameters with
             nbResults := 1000
             valueToSearch := w.sess.inputValue }] ∧
    (∀ p ∈ (selectAllValuesMatchingSearch w).2,
      p.nbResults = 1000 ∧ p.fetchMore = false) ∧
    isDismissed (selectAllValuesMatchingSearch w).1.sess ∧
    (selectAllValuesMatchingSearch w).1.sess.facetSearchTimeout = none ∧
    (resolveOk (selectAllValuesMatchingSearch w).1 w.nextId values reorder isMobile).2
      = [Notification.bulkSelectionCompleted
          (values.map fun v => { value := v, selected := true, excluded := false })] ∧
    isDismissed
      (resolveOk (selectAllValuesMatchingSearch w).1 w.nextId values reorder isMobile).1.sess ∧
    (resolveErr (selectAllValuesMatchingSearch w).1 w.nextId error).sess
      = (selectAllValuesMatchingSearch w).1.sess := by
  have hfind : ((selectAllValuesMatchingSearch w).1.attached).find? (fun p => p.1 == w.nextId)
      = some (w.nextId, Handler.selectAllHandler) := by
    show ((w.attached ++ [(w.nextId, Handler.selectAllHandler)]).find? fun p => p.1 == w.nextId)
      = some (w.nextId, Handler.selectAllHandler)
    exact find?_fresh w.attached w.nextId Handler.selectAllHandler hfresh
  refine ⟨rfl, ?_, isDismissed_completelyDismissSearch _, rfl, ?_, ?_, ?_⟩
  · intro p hp
    have hx : (selectAllValuesMatchingSearch w).2
        = [{ newFacetSearchParameters with
               nbResults := 1000
               valueToSearch := w.sess.inputValue }] := rfl
    rw [hx] at hp
    have : p = { newFacetSearchParameters with
                   nbResults := 1000
                   valueToSearch := w.sess.inputValue } := by
      simpa using hp
    subst this
    exact ⟨rfl, rfl⟩
  · unfold resolveOk
    rw [hfind]
  · unfold resolveOk
    rw [hfind]
    exact isDismissed_completelyDismissSearch _
  · unfold resolveErr
    rw [hfind]

/-- Witness for C9 on a fresh world resolving with three matching values.
-/
theorem selectAllMatching_witness :
    (selectAllValuesMatchingSearch initialWorld).2
      = [{ newFacetSearchParameters with
             nbResults := 1000
             valueToSearch := initialWorld.sess.inputValue }] ∧
    (∀ p ∈ (selectAllValuesMatchingSearch initialWorld).2,
      p.nbResults = 1000 ∧ p.fetchMore = false) ∧
    isDismissed (selectAllValuesMatchingSearch initialWorld).1.sess ∧
    (selectAllValuesMatchingSearch initialWorld).1.sess.facetSearchTimeout = none ∧
    (resolveOk (selectAllValuesMatchingSearch initialWorld).1 initialWorld.nextId
        ["v1", "v2", "v3"] (fun l => l) false).2
      = [Notification.bulkSelectionCompleted
          (["v1", "v2", "v3"].map fun v => { value := v, selected := true, excluded := false })] ∧
    isDismissed
      (resolveOk (selectAllValuesMatchingSearch initialWorld).1 initialWorld.nextId
        ["v1", "v2", "v3"] (fun l => l) false).1.sess ∧
    (resolveErr (selectAllValuesMatchingSearch initialWorld).1 initialWorld.nextId none).sess
      = (selectAllValuesMatchingSearch initialWorld).1.sess :=
  selectAllMatching_one_request_dismiss_bulk initialWorld ["v1", "v2", "v3"] (fun l => l)
    false none (by simp [initialWorld])

/-! ## C1 — supersession does not detach the pending request

`cancelAnyPendingSearchOperation` runs
`Promise.reject(this.facetSearchPromise).catch(() => {})`, which builds a
*new* rejected promise and does nothing to the pending one: the `.then`
handler attached in `triggerNewFacetSearch` stays armed and, on
resolution, calls `processNewFacetSearchResults` with no check that the
request is still current.  The trace below exhibits the resulting stale
render. -/

/-- Replace-search parameters for the term `"a"`. -/
def termAParams : FacetSearchParameters :=
  { newFacetSearchParameters with valueToSearch := "a" }

/-- Replace-search parameters for the term `"ab"`. -/
def termABParams : FacetSearchParameters :=
  { newFacetSearchParameters with valueToSearch := "ab" }

/-- Trigger a search for `"a"` (promise 0). -/
def raceWorld1 : PromiseWorld := (triggerNewFacetSearch initialWorld termAParams).1

/-- Trigger a search for `"ab"` (promise 1); promise 0 is "cancelled". -/
def raceWorld2 : PromiseWorld := (triggerNewFacetSearch raceWorld1 termABParams).1

/-- Promise 1 — the current request — resolves with `["vb"]`. -/
def raceWorld3 : PromiseWorld := (resolveOk raceWorld2 1 ["vb"] (fun l => l) false).1

/-- Promise 0 — the superseded request — resolves late with `["va"]`. -/
def raceWorld4 : PromiseWorld := (resolveOk raceWorld3 0 ["va"] (fun l => l) false).1

/-- **C1.** Evaluating the code on the failing trace: after triggering a
search for `"a"`, superseding it with a search for `"ab"` and rendering
the latter's result `["vb"]`, the *superseded* request's late resolution
with `["va"]` still mutates session state — it replaces the rendered list
with the stale term's results and grows the displayed identifiers — so the
final visible list does not depend only on the last non-cancelled
request's term, contradicting the claimed cancellation invariant. -/
theorem superseded_resolution_mutates_state :
    raceWorld2.sess.facetSearchPromise = some 1 ∧
    raceWorld3.sess.entries = [Entry.selectAll, Entry.value "vb"] ∧
    raceWorld4.sess.entries = [Entry.selectAll, Entry.value "va"] ∧
    raceWorld4.sess.currentlyDisplayedResults = some ["vb", "va"] ∧
    raceWorld4.sess ≠ raceWorld3.sess := by
  refine ⟨rfl, rfl, rfl, rfl, by decide⟩

/-! ## C10 — the displayed-identifier list only grows -/

/-- One event handler either leaves the displayed-identifier list alone or
extends it, except for a full dismiss, which clears it. -/
def cdrGrowsOrDismissed (s s1 : SessionState) : Prop :=
  (s1.currentlyDisplayedResults = none →
    s.currentlyDisplayedResults = none ∨ isDismissed s1) ∧
  ∀ l, s1.currentlyDisplayedResults = some l →
    ∃ t, l = s.currentlyDisplayedResults.getD [] ++ t

theorem grows_of_cdr_eq (s s1 : SessionState)
    (h : s1.currentlyDisplayedResults = s.currentlyDisplayedResults) :
    cdrGrowsOrDismissed s s1 := by
  constructor
  · intro h0
    rw [h] at h0
    exact Or.inl h0
  · intro l hl
    rw [h] at hl
    refine ⟨[], ?_⟩
    rw [hl]
    simp

theorem grows_dismissed (s s0 : SessionState) :
    cdrGrowsOrDismissed s (completelyDismissSearch s0) := by
  constructor
  · intro _
    exact Or.inr (isDismissed_completelyDismissSearch s0)
  · intro l hl
    have hn : (completelyDismissSearch s0).currentlyDisplayedResults = none := rfl
    rw [hn] at hl
    cases hl

theorem grows_concat (s s1 : SessionState) (new : List String)
    (h : s1.currentlyDisplayedResults
      = some (s.currentlyDisplayedResults.getD [] ++ new)) :
    cdrGrowsOrDismissed s s1 := by
  constructor
  · intro h0
    rw [h0] at h
    cases h
  · intro l hl
    rw [h] at hl
    exact ⟨new, (Option.some.inj hl).symm⟩

theorem grows_congr (s s2 s1 : SessionState)
    (h : s2.currentlyDisplayedResults = s.currentlyDisplayedResults)
    (hg : cdrGrowsOrDismissed s2 s1) : cdrGrowsOrDismissed s s1 := by
  obtain ⟨h1, h2⟩ := hg
  constructor
  · intro h0
    rcases h1 h0 with hn | hd
    · rw [h] at hn
      exact Or.inl hn
    · exact Or.inr hd
  · intro l hl
    obtain ⟨t, ht⟩ := h2 l hl
    refine ⟨t, ?_⟩
    rw [ht, h]

/-- `rebuildSearchResults` always *concatenates* the newly rendered values
onto the existing displayed-identifier list — also on a replace render,
which empties the DOM list but not `currentlyDisplayedResults`. -/
theorem rebuildSearchResults_cdr (s : SessionState) (fvs : List String)
    (params : FacetSearchParameters) (isMobile : Bool) :
    (rebuildSearchResults s fvs params isMobile).currentlyDisplayedResults
      = some (s.currentlyDisplayedResults.getD [] ++ fvs) := by
  unfold rebuildSearchResults
  cases h : s.currentlyDisplayedResults <;> simp [h]

theorem processNewFacetSearchResults_cdr (s : SessionState) (fvs : List String)
    (params : FacetSearchParameters) (reorder : List String → List String)
    (isMobile : Bool) :
    (processNewFacetSearchResults s fvs params reorder isMobile).currentlyDisplayedResults
        = s.currentlyDisplayedResults
    ∨ (processNewFacetSearchResults s fvs params reorder isMobile).currentlyDisplayedResults
        = some (s.currentlyDisplayedResults.getD [] ++ reorder fvs) := by
  unfold processNewFacetSearchResults
  by_cases h : (reorder fvs).length > 0
  · right
    rw [if_pos h]
    by_cases hfm : params.fetchMore = true
    · simp only [makeFirstSearchResultTheCurrentOne, hfm, if_true]
      exact rebuildSearchResults_cdr _ _ _ _
    · simp only [makeFirstSearchResultTheCurrentOne, hfm, Bool.false_eq_true, if_false]
      exact rebuildSearchResults_cdr _ _ _ _
  · left
    rw [if_neg h]
    by_cases hfm : params.fetchMore = true
    · rw [if_pos hfm]
    · rw [if_neg hfm]

theorem onSearchSuccess_cdr (s : SessionState) (fvs : List String)
    (params : FacetSearchParameters) (reorder : List String → List String)
    (isMobile : Bool) :
    (onSearchSuccess s fvs params reorder isMobile).currentlyDisplayedResults
        = s.currentlyDisplayedResults
    ∨ (onSearchSuccess s fvs params reorder isMobile).currentlyDisplayedResults
        = some (s.currentlyDisplayedResults.getD [] ++ reorder fvs) :=
  processNewFacetSearchResults_cdr s fvs params reorder isMobile

theorem onSearchFailure_cdr (s : SessionState) (error : Option String) :
    (onSearchFailure s error).currentlyDisplayedResults = s.currentlyDisplayedResults := by
  cases error <;> rfl

theorem kbNav_cdrGrows (w : PromiseWorld) (key : Key) (shift isEmpty : Bool) :
    cdrGrowsOrDismissed w.sess (handleKeyboardNavigation w key shift isEmpty).world.sess := by
  cases key
  case enter =>
    show cdrGrowsOrDismissed w.sess (keyboardNavigationEnterPressed w shift isEmpty).world.sess
    unfold keyboardNavigationEnterPressed
    by_cases hs : shift = true
    · rw [if_pos hs]
      exact grows_of_cdr_eq _ _ rfl
    · rw [if_neg hs]
      by_cases hrv : w.sess.resultsVisible = true
      · rw [if_pos hrv]
        cases hps : performSelectActionOnCurrentSearchResult w with
        | none => exact grows_of_cdr_eq _ _ rfl
        | some r => exact grows_dismissed _ _
      · rw [if_neg hrv]
        by_cases hnr : w.sess.noResultsClass = true ∧ ¬(isEmpty = true)
        · rw [if_pos hnr]
          exact grows_dismissed _ _
        · rw [if_neg hnr]
          exact grows_of_cdr_eq _ _ rfl
  case del =>
    show cdrGrowsOrDismissed w.sess (keyboardNavigationDeletePressed w shift).world.sess
    unfold keyboardNavigationDeletePressed
    by_cases hs : shift = true
    · rw [if_pos hs]
      cases hpe : performExcludeActionOnCurrentSearchResult w with
      | none => exact grows_of_cdr_eq _ _ rfl
      | some r => exact grows_dismissed _ _
    · rw [if_neg hs]
      exact grows_of_cdr_eq _ _ rfl
  case escape => exact grows_dismissed _ _
  case downArrow => exact grows_of_cdr_eq _ _ rfl
  case upArrow => exact grows_of_cdr_eq _ _ rfl
  case other => exact grows_of_cdr_eq _ _ rfl

theorem handleFacetSearchKeyUp_cdrGrows (w : PromiseWorld) (key : Key) (shift : Bool)
    (newInput : String) :
    cdrGrowsOrDismissed w.sess (handleFacetSearchKeyUp w key shift newInput).world.sess := by
  unfold handleFacetSearchKeyUp
  refine grows_congr _ _ _ ?_ (kbNav_cdrGrows _ key shift _)
  split <;> rfl

theorem step_cdrGrows (reorder : List String → List String) (w : PromiseWorld) (e : Event) :
    cdrGrowsOrDismissed w.sess (step reorder w e).world.sess := by
  cases e
  case keyUp key shift newInput =>
    exact handleFacetSearchKeyUp_cdrGrows w key shift newInput
  case timerFire =>
    show cdrGrowsOrDismissed w.sess (facetSearchTimeoutFire w).1.sess
    cases ht : w.sess.facetSearchTimeout with
    | none =>
      simp only [facetSearchTimeoutFire, ht]
      exact grows_of_cdr_eq _ _ rfl
    | some params =>
      simp only [facetSearchTimeoutFire, ht]
      by_cases hin : w.sess.inputValue = ""
      · rw [if_pos (show ({ w.sess with facetSearchTimeout := none } : SessionState).inputValue
            = "" from hin)]
        by_cases hse : params.searchEvenIfEmpty = true
        · rw [if_pos hse]
          exact grows_of_cdr_eq _ _ rfl
        · rw [if_neg hse]
          exact grows_dismissed _ _
      · rw [if_neg (show ¬({ w.sess with facetSearchTimeout := none } : SessionState).inputValue
            = "" from hin)]
        exact grows_of_cdr_eq _ _ rfl
  case promiseOk id values =>
    show cdrGrowsOrDismissed w.sess (resolveOk w id values reorder false).1.sess
    cases hf : w.attached.find? (fun p => p.1 == id) with
    | none =>
      simp only [resolveOk, hf]
      exact grows_of_cdr_eq _ _ rfl
    | some ph =>
      obtain ⟨pid, hd⟩ := ph
      cases hd with
      | facetSearchHandler params =>
        simp only [resolveOk, hf]
        rcases onSearchSuccess_cdr w.sess values params reorder false with hc | hc
        · exact grows_of_cdr_eq _ _ hc
        · exact grows_concat _ _ _ hc
      | selectAllHandler =>
        simp only [resolveOk, hf]
        exact grows_dismissed _ _
  case promiseErr id error =>
    show cdrGrowsOrDismissed w.sess (resolveErr w id error).sess
    cases hf : w.attached.find? (fun p => p.1 == id) with
    | none =>
      simp only [resolveErr, hf]
      exact grows_of_cdr_eq _ _ rfl
    | some ph =>
      obtain ⟨pid, hd⟩ := ph
      cases hd with
      | facetSearchHandler params =>
        simp only [resolveErr, hf]
        exact grows_of_cdr_eq _ _ (onSearchFailure_cdr w.sess error)
      | selectAllHandler =>
        simp only [resolveErr, hf]
        exact grows_of_cdr_eq _ _ rfl
  case focusSearch newDesign => exact grows_of_cdr_eq _ _ rfl
  case scroll g =>
    show cdrGrowsOrDismissed w.sess (handleFacetSearchResultsScroll w g).1.sess
    show cdrGrowsOrDismissed w.sess
      ((if w.sess.facetSearchPromise.isSome ∨ w.sess.inputValue ≠ "" ∨ ¬w.sess.moreValuesToFetch
        then (w, ([] : List FacetSearchParameters))
        else if 2 * (g.scrollHeight - (g.scrollTop + g.clientHeight)) < g.clientHeight
          then triggerNewFacetSearch w (buildParamsForFetchingMore w.sess)
          else (w, [])).1.sess)
    by_cases h1 : w.sess.facetSearchPromise.isSome ∨ w.sess.inputValue ≠ "" ∨
        ¬w.sess.moreValuesToFetch
    · rw [if_pos h1]
      exact grows_of_cdr_eq _ _ rfl
    · rw [if_neg h1]
      by_cases h2 : 2 * (g.scrollHeight - (g.scrollTop + g.clientHeight)) < g.clientHeight
      · rw [if_pos h2]
        exact grows_of_cdr_eq _ _ rfl
      · rw [if_neg h2]
        exact grows_of_cdr_eq _ _ rfl
  case clearClick => exact grows_dismissed _ _
  case clickElsewhere outside =>
    show cdrGrowsOrDismissed w.sess
      ((if w.sess.currentlyDisplayedResults.isSome ∧ outside then
          ({ world := { w with sess := completelyDismissSearch w.sess }
             requests := [], notifications := [] } : StepResult)
        else { world := w, requests := [], notifications := [] }).world.sess)
    by_cases hc : w.sess.currentlyDisplayedResults.isSome ∧ outside
    · rw [if_pos hc]
      exact grows_dismissed _ _
    · rw [if_neg hc]
      exact grows_of_cdr_eq _ _ rfl
  case hoverResult i =>
    show cdrGrowsOrDismissed w.sess
      ((if i < w.sess.entries.length then
          ({ world := { w with sess := { w.sess with current := some i } }
             requests := [], notifications := [] } : StepResult)
        else { world := w, requests := [], notifications := [] }).world.sess)
    by_cases hi : i < w.sess.entries.length
    · rw [if_pos hi]
      exact grows_of_cdr_eq _ _ rfl
    · rw [if_neg hi]
      exact grows_of_cdr_eq _ _ rfl
  case resultClickSettled => exact grows_dismissed _ _

/-- **C10.** Within one session the displayed-identifier list only grows:
every render — including a replace — concatenates the newly rendered
values onto the existing list; and across every event the list is either
extended (possibly by nothing) or cleared, the latter only as part of a
full dismiss of the session. -/
theorem displayed_results_only_grow (s : SessionState) (fvs : List String)
    (params : FacetSearchParameters) (isMobile : Bool)
    (reorder : List String → List String) (w : PromiseWorld) (e : Event) :
    (rebuildSearchResults s fvs params isMobile).currentlyDisplayedResults
      = some (s.currentlyDisplayedResults.getD [] ++ fvs) ∧
    (completelyDismissSearch s).currentlyDisplayedResults = none ∧
    cdrGrowsOrDismissed w.sess (step reorder w e).world.sess :=
  ⟨rebuildSearchResults_cdr s fvs params isMobile, rfl, step_cdrGrows reorder w e⟩

/-- Witness for C10 at concrete inputs: a replace render over the
anchored two-value state and a timer-fire event on the exhausted world. -/
theorem displayed_results_only_grow_witness :
    (rebuildSearchResults anchoredState ["z"] termAParams false).currentlyDisplayedResults
      = some (anchoredState.currentlyDisplayedResults.getD [] ++ ["z"]) ∧
    (completelyDismissSearch anchoredState).currentlyDisplayedResults = none ∧
    cdrGrowsOrDismissed staleFlagWorld.sess
      (step (fun l => l) staleFlagWorld Event.timerFire).world.sess :=
  displayed_results_only_grow anchoredState ["z"] termAParams false (fun l => l)
    staleFlagWorld Event.timerFire

end FacetSearchSpec
